import Mathlib

/-!
Shallow embedding of `transcription_handler.py` from the
whisper-transcriber-telegram-bot repository.

External effects (subprocess spawns, chat messages, document uploads, file
removals, backoff sleeps, warning/error log lines) are modelled as an explicit
event trace.  The behaviour of the external world (the metadata tool's exit
code / stderr / stdout per attempt, whether the audio download created the
file, the transcription tool's exit code and the files it left on disk) is an
oracle supplied as a parameter, so every function of the source becomes a pure
Lean function from its inputs and the oracle to a trace and a result.
`logger.info` lines are not modelled; `logger.warning` is the `warn` event and
`logger.error` the `logError` event.
-/

/-- Observable side effects of the pipeline, in program order. -/
inductive Event where
  | spawn (cmd : List String)
  | warn
  | logError
  | sleep (seconds : Nat)
  | sendMessage (text : String)
  | sendDocument (path : String)
  | removeFile (path : String)
deriving DecidableEq, Repr

/-! ## The YouTube URL pattern

The source pattern is
`(https?://)?(www\.)?(youtube|youtu|youtube-nocookie)\.(com|be)/(watch\?v=|embed/|v/|.+\?v=)?([^&=%\?]{11})`
matched with `re.match` (anchored at the start, trailing input allowed).
The matcher below implements Python's leftmost-biased backtracking for this
concrete pattern and returns capture group 6 on success. -/

/-- Characters allowed in the 11-character id token: the class `[^&=%\?]`. -/
def goodIdChar (c : Char) : Bool :=
  !(c = '&' || c = '=' || c = '%' || c = '?')

/-- Group 6, `[^&=%\?]{11}`: exactly eleven allowed characters (further
input may follow, as `re.match` does not anchor the end). -/
def tryTake11 (cs : List Char) : Option String :=
  if (cs.take 11).length = 11 && (cs.take 11).all goodIdChar then
    some (String.mk (cs.take 11))
  else none

/-- Match a literal character sequence at the head, returning the rest. -/
def stripLit : List Char → List Char → Option (List Char)
  | [], cs => some cs
  | _ :: _, [] => none
  | p :: ps, c :: cs => if c = p then stripLit ps cs else none

/-- First alternative that matches wins (Python alternation order). -/
def firstSome (a b : Option String) : Option String :=
  match a with
  | some g => some g
  | none => b

/-- Sequence a literal match with a continuation. -/
def andThen (o : Option (List Char)) (k : List Char → Option String) : Option String :=
  match o with
  | some cs => k cs
  | none => none

/-- Length of the maximal run of non-newline characters (what `.` may span). -/
def nonNLRun : List Char → Nat
  | [] => 0
  | c :: cs => if c = '\n' then 0 else nonNLRun cs + 1

/-- The `.+\?v=` alternative followed by group 6: a greedy `.+` tries the
longest length first (`k` counts down from the non-newline run length). -/
def tryDotPlus (cs : List Char) : Nat → Option String
  | 0 => none
  | k + 1 =>
      firstSome
        (andThen (stripLit ['?', 'v', '='] (cs.drop (k + 1))) tryTake11)
        (tryDotPlus cs k)

/-- Optional group 5 `(watch\?v=|embed/|v/|.+\?v=)?` then group 6. -/
def tryGroup5 (cs : List Char) : Option String :=
  firstSome (andThen (stripLit "watch?v=".data cs) tryTake11)
    (firstSome (andThen (stripLit "embed/".data cs) tryTake11)
      (firstSome (andThen (stripLit "v/".data cs) tryTake11)
        (firstSome (tryDotPlus cs (nonNLRun cs)) (tryTake11 cs))))

/-- Literal `\.(com|be)/` then the rest. -/
def tryTld (cs : List Char) : Option String :=
  andThen (stripLit ['.'] cs) fun cs2 =>
    firstSome (andThen (stripLit "com/".data cs2) tryGroup5)
      (andThen (stripLit "be/".data cs2) tryGroup5)

/-- Alternation `(youtube|youtu|youtube-nocookie)` then the rest, in order. -/
def tryDomain (cs : List Char) : Option String :=
  firstSome (andThen (stripLit "youtube".data cs) tryTld)
    (firstSome (andThen (stripLit "youtu".data cs) tryTld)
      (andThen (stripLit "youtube-nocookie".data cs) tryTld))

/-- Optional `(www\.)?` then the rest. -/
def tryWww (cs : List Char) : Option String :=
  firstSome (andThen (stripLit "www.".data cs) tryDomain) (tryDomain cs)

/-- Optional `(https?://)?` (greedy: `https://`, then `http://`, then absent). -/
def tryScheme (cs : List Char) : Option String :=
  firstSome (andThen (stripLit "https://".data cs) tryWww)
    (firstSome (andThen (stripLit "http://".data cs) tryWww) (tryWww cs))

/-- Model of `re.match(YOUTUBE_REGEX, url)`: `some g` iff the pattern matches, where
`g` is capture group 6 (the leftmost-biased one Python reports). -/
def youtube_regex_group6 (url : String) : Option String :=
  tryScheme url.data

/-- Model of `extract_youtube_video_id`: group 6 of the match, or the
`ValueError("Invalid YouTube URL")` the source raises. -/
def extract_youtube_video_id (url : String) : Except String String :=
  match youtube_regex_group6 url with
  | some g => Except.ok g
  | none => Except.error "Invalid YouTube URL"

/-! ## Duration formatting and video details -/

/-- Model of `format_duration(duration)` where the raw JSON value is either absent
(`none`) or a number of seconds.  Python's `if not duration:` is true for
both `None` and `0`. -/
def format_duration (duration : Option Nat) : String :=
  match duration with
  | none => "No duration available"
  | some d =>
      if d = 0 then "No duration available"
      else
        let hours := d / 3600
        let remainder := d % 3600
        let minutes := remainder / 60
        let seconds := remainder % 60
        if hours ≠ 0 then
          toString hours ++ "h " ++ toString minutes ++ "m " ++ toString seconds ++ "s"
        else
          toString minutes ++ "m " ++ toString seconds ++ "s"

def USE_SNIPPET_FOR_DESCRIPTION : Bool := false

def DESCRIPTION_MAX_LINES : Nat := 30

/-- Model of `get_description_snippet`: first `max_lines` newline-separated lines. -/
def get_description_snippet (description : String) (max_lines : Nat) : String :=
  String.intercalate "\n" ((description.splitOn "\n").take max_lines)

/-- A numeric JSON field that falls back to a placeholder string. -/
inductive StrOrNum where
  | str (s : String)
  | num (n : Int)
deriving DecidableEq, Repr

/-- The fields of the JSON object emitted by the metadata tool that the
source reads; `none` models an absent key (`dict.get` default fires). -/
structure RawVideoJson where
  title : Option String := none
  duration : Option Nat := none
  uploader : Option String := none
  upload_date : Option String := none
  view_count : Option Int := none
  like_count : Option Int := none
  average_rating : Option Int := none
  comment_count : Option Int := none
  channel_id : Option String := none
  id : Option String := none
  tags : Option (List String) := none
  description : Option String := none
deriving DecidableEq, Repr

/-- The `filtered_details` dictionary built by `fetch_youtube_details`. -/
structure VideoDetails where
  title : String
  duration : String
  channel : String
  upload_date : String
  views : StrOrNum
  likes : StrOrNum
  average_rating : StrOrNum
  comment_count : StrOrNum
  channel_id : String
  video_id : String
  tags : List String
  description : String
deriving DecidableEq, Repr

/-- Map a numeric `.get(key, placeholder)` lookup. -/
def numOr (o : Option Int) (placeholder : String) : StrOrNum :=
  match o with
  | some n => StrOrNum.num n
  | none => StrOrNum.str placeholder

/-- Construction of `filtered_details` from the parsed JSON object. -/
def mkDetails (j : RawVideoJson) : VideoDetails :=
  let description_text :=
    if USE_SNIPPET_FOR_DESCRIPTION then
      get_description_snippet (j.description.getD "No description available")
        DESCRIPTION_MAX_LINES
    else
      j.description.getD "No description available"
  { title := j.title.getD "No title available"
    duration := format_duration j.duration
    channel := j.uploader.getD "No channel information available"
    upload_date := j.upload_date.getD "No upload date available"
    views := numOr j.view_count "No views available"
    likes := numOr j.like_count "No likes available"
    average_rating := numOr j.average_rating "No rating available"
    comment_count := numOr j.comment_count "No comment count available"
    channel_id := j.channel_id.getD "No channel ID available"
    video_id := j.id.getD "No video ID available"
    tags := j.tags.getD ["No tags available"]
    description := description_text }

/-! ## fetch_youtube_details -/

/-- Environment oracle for one invocation of the external metadata tool:
its exit code, whether it wrote anything to stderr, and whether its stdout
parses as a JSON object (`some` = the parsed object, `none` =
`json.JSONDecodeError`). -/
structure AttemptOutcome where
  returncode : Int
  stderrNonEmpty : Bool
  stdout : Option RawVideoJson
deriving Repr

/-- The fixed user-agent string passed to the metadata tool. -/
def YT_USER_AGENT : String :=
  "Mozilla/5.0 (Windows NT 10.0; Win64; x64) AppleWebKit/537.36 (KHTML, like Gecko) Chrome/58.0.3029.110 Safari/537.3"

/-- The metadata command line built at the top of `fetch_youtube_details`. -/
def ytFetchCmd (url : String) : List String :=
  ["yt-dlp", "--user-agent", YT_USER_AGENT, "--dump-json", url]

/-- The `for attempt in range(max_retries)` loop of `fetch_youtube_details`.
`att` is the oracle giving each attempt's outcome, `attempt` the current
index, `fuel` the number of loop iterations left (`max_retries - attempt`).
Returns the events of the remaining iterations and the function's result
(`none` models `return None`). -/
def fetchLoop (att : Nat → AttemptOutcome) (url : String) (max_retries base_delay : Nat) :
    Nat → Nat → List Event × Option VideoDetails
  | _, 0 => ([], none)
  | attempt, fuel + 1 =>
      let o := att attempt
      if o.stderrNonEmpty = true ∧ o.returncode ≠ 0 then
        if attempt < max_retries - 1 then
          let r := fetchLoop att url max_retries base_delay (attempt + 1) fuel
          (Event.spawn (ytFetchCmd url) :: Event.warn ::
            Event.sleep (base_delay * 2 ^ attempt) :: r.1, r.2)
        else
          let r := fetchLoop att url max_retries base_delay (attempt + 1) fuel
          (Event.spawn (ytFetchCmd url) :: Event.warn :: Event.logError :: r.1, r.2)
      else
        match o.stdout with
        | some j => ([Event.spawn (ytFetchCmd url)], some (mkDetails j))
        | none => ([Event.spawn (ytFetchCmd url), Event.logError], none)

/-- Model of `fetch_youtube_details(url, max_retries, base_delay)` under the oracle
`att`: the event trace and the returned details (or `None`). -/
def fetch_youtube_details (att : Nat → AttemptOutcome) (url : String)
    (max_retries base_delay : Nat) : List Event × Option VideoDetails :=
  fetchLoop att url max_retries base_delay 0 max_retries

/-! ## Filesystem helpers and transcribe_audio -/

/-- A filesystem snapshot: maps a path to the size of the file there, or
`none` when `os.path.exists` is false. -/
def FileSys : Type := String → Option Nat

/-- Test `os.path.exists(path) and os.path.getsize(path) > 0`. -/
def fileNonEmpty (fs : FileSys) (path : String) : Bool :=
  match fs path with
  | some sz => decide (sz > 0)
  | none => false

/-- Model of `os.path.basename` (POSIX): the part after the last slash (the whole
string when there is none). -/
def basename (p : String) : String :=
  String.mk ((p.data.reverse.takeWhile (fun c => c ≠ '/')).reverse)

/-- Index of the last dot in a character list, if any. -/
def lastDotIdx : List Char → Option Nat
  | [] => none
  | c :: cs =>
      match lastDotIdx cs with
      | some i => some (i + 1)
      | none => if c = '.' then some 0 else none

/-- Model of `os.path.splitext(b)[0]` for a basename `b`: drop the extension at the
last dot, unless every character before that dot is itself a dot. -/
def splitextStem (b : String) : String :=
  match lastDotIdx b.data with
  | none => b
  | some i =>
      if (b.data.take i).any (fun c => c ≠ '.') then String.mk (b.data.take i) else b

/-- The `transcript_files` mapping of `transcribe_audio`, in declaration
order txt, srt, vtt. -/
def transcript_files (out_dir base_filename : String) : List (String × String) :=
  [("txt", out_dir ++ "/" ++ base_filename ++ ".txt"),
   ("srt", out_dir ++ "/" ++ base_filename ++ ".srt"),
   ("vtt", out_dir ++ "/" ++ base_filename ++ ".vtt")]

/-- Model of `transcribe_audio(audio_path, output_dir, youtube_url)` under a
filesystem oracle `fs` (the state after the transcription tool ran) and the
tool's exit code.  Returns the event trace and `created_files` (format tag
paired with path, insertion order). -/
def transcribe_audio (fs : FileSys) (audio_path out_dir : String) (returncode : Int) :
    List Event × List (String × String) :=
  let base_filename := splitextStem (basename audio_path)
  let files := transcript_files out_dir base_filename
  let created := files.filter (fun p => fileNonEmpty fs p.2)
  let evs := Event.spawn ["whisper", audio_path, "--output_dir", out_dir] ::
    ((if returncode ≠ 0 then [Event.logError] else []) ++
      files.filterMap (fun p => if fileNonEmpty fs p.2 then none else some Event.warn))
  (evs, created)

/-- The audio download command of `download_audio`. -/
def ytDownloadCmd (url output_path : String) : List String :=
  ["yt-dlp", "--extract-audio", "--audio-format", "mp3", url, "-o", output_path]

/-- Model of `download_audio(url, output_path)` under an oracle saying whether the
file exists afterwards: one subprocess spawn, plus an error log when the
file was not created. -/
def download_audio (url output_path : String) (creates : Bool) : List Event :=
  Event.spawn (ytDownloadCmd url output_path) :: (if creates then [] else [Event.logError])

/-! ## URL discovery: re.findall(r'(https?://\S+)', message_text) -/

/-- The Python `\s` class for the ASCII range (plus the vertical tab and form feed). -/
def isPySpace (c : Char) : Bool :=
  c = ' ' || c = '\t' || c = '\n' || c = '\r' || c = Char.ofNat 11 || c = Char.ofNat 12

/-- Maximal run of non-whitespace characters (`\S+`, greedy). -/
def nonSpaceRun : List Char → Nat
  | [] => 0
  | c :: cs => if isPySpace c then 0 else nonSpaceRun cs + 1

/-- Try to match `https?://\S+` at this exact position, returning the match
and the remaining input. -/
def tryUrlAt (cs : List Char) : Option (String × List Char) :=
  let tryWith (scheme : List Char) : Option (String × List Char) :=
    match stripLit scheme cs with
    | some rest =>
        let run := nonSpaceRun rest
        if run = 0 then none
        else some (String.mk (scheme ++ rest.take run), rest.drop run)
    | none => none
  match tryWith "https://".data with
  | some r => some r
  | none => tryWith "http://".data

/-- Scan for non-overlapping leftmost matches; `fuel` bounds the scan (it
starts at the input length and every step consumes at least one character). -/
def findallAux : Nat → List Char → List String
  | 0, _ => []
  | fuel + 1, cs =>
      match tryUrlAt cs with
      | some (url, rest) => url :: findallAux fuel rest
      | none =>
          match cs with
          | [] => []
          | _ :: cs2 => findallAux fuel cs2

/-- The `urls` list of `process_url_message`. -/
def findallUrls (text : String) : List String :=
  findallAux text.data.length text.data

/-! ## process_url_message -/

/-- Oracle for the external world during the processing of one URL. -/
structure UrlEnv where
  /-- outcome of each metadata-tool attempt inside `fetch_youtube_details` -/
  fetchAttempts : Nat → AttemptOutcome
  /-- whether `os.path.exists(audio_path)` holds after `download_audio` -/
  downloadCreates : Bool
  /-- exit code of the transcription tool -/
  whisperRc : Int
  /-- filesystem snapshot after the transcription tool ran -/
  fsAfterWhisper : FileSys

/-- The body of the `for url in urls` loop of `process_url_message` for a
single URL.  `Except.error` models the uncaught `ValueError` of
`extract_youtube_video_id` propagating out of the function; every other
path yields `Except.ok` with the event trace of this iteration. -/
def processUrl (env : UrlEnv) (url : String) : Except String (List Event) :=
  match youtube_regex_group6 url with
  | none => Except.ok [Event.sendMessage "Skipping non-YouTube URL."]
  | some _ =>
      match extract_youtube_video_id url with
      | Except.error e => Except.error e
      | Except.ok video_id =>
          let youtube_url := "https://www.youtube.com/watch?v=" ++ video_id
          let fr := fetch_youtube_details env.fetchAttempts youtube_url 3 5
          let ev1 := Event.sendMessage "Processing YouTube URL..." ::
            Event.sendMessage "Fetching YouTube video details..." :: fr.1
          match fr.2 with
          | none => Except.ok (ev1 ++ [Event.sendMessage "Failed to fetch video details."])
          | some details =>
              let audio_path := video_id ++ ".mp3"
              let ev2 := ev1 ++
                Event.sendMessage
                  ("Title: " ++ details.title ++ "\nDownloading audio for transcription...") ::
                download_audio youtube_url audio_path env.downloadCreates
              if env.downloadCreates then
                let tr := transcribe_audio env.fsAfterWhisper audio_path "transcriptions"
                  env.whisperRc
                let ev3 := ev2 ++ Event.sendMessage "Transcribing audio..." :: tr.1
                if tr.2.isEmpty then
                  Except.ok (ev3 ++
                    [Event.sendMessage "Failed to transcribe audio.",
                     Event.removeFile audio_path])
                else
                  Except.ok (ev3 ++
                    Event.sendMessage "Sending transcription files..." ::
                    (tr.2.map (fun p => Event.sendDocument p.2) ++
                      [Event.removeFile audio_path,
                       Event.sendMessage "There ya go, have a nice day! :-)"]))
              else
                Except.ok (ev2 ++ [Event.sendMessage "Audio file could not be downloaded."])

/-- The `for url in urls` loop: the `i`-th URL sees oracle `envs i`; an
uncaught error aborts the whole function. -/
def processUrls (envs : Nat → UrlEnv) : List String → Nat → Except String (List Event)
  | [], _ => Except.ok []
  | url :: rest, i =>
      match processUrl (envs i) url with
      | Except.error e => Except.error e
      | Except.ok evs =>
          match processUrls envs rest (i + 1) with
          | Except.error e => Except.error e
          | Except.ok evs2 => Except.ok (evs ++ evs2)

/-- Model of `process_url_message(message_text, bot, update)` under per-URL oracles. -/
def process_url_message (envs : Nat → UrlEnv) (message_text : String) :
    Except String (List Event) :=
  processUrls envs (findallUrls message_text) 0

/-! ## Event classifiers -/

def isSendDocEv : Event → Bool
  | Event.sendDocument _ => true
  | _ => false

def isSleepEv : Event → Bool
  | Event.sleep _ => true
  | _ => false

def isWarnEv : Event → Bool
  | Event.warn => true
  | _ => false

def isSpawnEv : Event → Bool
  | Event.spawn _ => true
  | _ => false

def sleepSeconds : Event → Option Nat
  | Event.sleep n => some n
  | _ => none

/-! ## Concrete oracle instances used as witnesses and counterexamples -/

/-- A JSON object with every optional field absent. -/
def emptyJson : RawVideoJson := {}

/-- A JSON object carrying a title, a duration and an id. -/
def sampleJson : RawVideoJson :=
  { title := some "Sample Video", duration := some 3661,
    uploader := some "Sample Channel", id := some "dQw4w9WgXcQ" }

/-- Every attempt exits 1 with an empty stderr and valid JSON on stdout. -/
def cexAttC1 : Nat → AttemptOutcome := fun _ => ⟨1, false, some emptyJson⟩

/-- Every attempt exits 1 with error output and undecodable stdout. -/
def failAtt : Nat → AttemptOutcome := fun _ => ⟨1, true, none⟩

/-- Every attempt exits 0 with empty stderr and undecodable stdout. -/
def badJsonAtt : Nat → AttemptOutcome := fun _ => ⟨0, false, none⟩

/-- Two failing attempts (exit 1, error output), then a clean success. -/
def twoFailAtt : Nat → AttemptOutcome := fun n =>
  if n < 2 then ⟨1, true, none⟩ else ⟨0, false, some sampleJson⟩

/-- A filesystem where only the txt and srt transcripts exist, non-empty. -/
def c6fs : FileSys := fun p =>
  if p = "transcriptions/audio.txt" then some 5
  else if p = "transcriptions/audio.srt" then some 7
  else none

/-- A filesystem holding non-empty txt and srt transcripts for the sample id. -/
def c9fs : FileSys := fun p =>
  if p = "transcriptions/dQw4w9WgXcQ.txt" then some 11
  else if p = "transcriptions/dQw4w9WgXcQ.srt" then some 22
  else none

/-- Oracle: metadata fetch succeeds at once, download works, transcription
leaves no files. -/
def c7Env : UrlEnv := ⟨fun _ => ⟨0, false, some sampleJson⟩, true, 0, fun _ => none⟩

/-- Oracle for a URL that is skipped before any external call. -/
def c8Env : UrlEnv := ⟨fun _ => ⟨0, false, some emptyJson⟩, false, 0, fun _ => none⟩

/-- Oracle: everything succeeds, whisper exits 1 but leaves txt and srt. -/
def c9Env : UrlEnv := ⟨fun _ => ⟨0, false, some sampleJson⟩, true, 1, c9fs⟩

/-! ## Lemmas about the URL matcher -/

theorem tryTake11_length {cs : List Char} {g : String} (h : tryTake11 cs = some g) :
    g.length = 11 := by
  unfold tryTake11 at h
  split at h
  · rename_i hcond
    injection h with h
    subst h
    have h1 : (cs.take 11).length = 11 := by
      have := Bool.and_eq_true_iff.mp hcond
      exact of_decide_eq_true this.1
    simpa [String.length] using h1
  · exact Option.noConfusion h

theorem firstSome_eq_some {a b : Option String} {g : String}
    (h : firstSome a b = some g) : a = some g ∨ b = some g := by
  cases a with
  | some x => exact Or.inl (by simpa [firstSome] using h)
  | none => exact Or.inr (by simpa [firstSome] using h)

theorem andThen_eq_some {o : Option (List Char)} {k : List Char → Option String}
    {g : String} (h : andThen o k = some g) : ∃ cs, o = some cs ∧ k cs = some g := by
  cases o with
  | some cs => exact ⟨cs, rfl, by simpa [andThen] using h⟩
  | none => exact absurd h (by simp [andThen])

theorem tryDotPlus_length {cs : List Char} {g : String} :
    ∀ k, tryDotPlus cs k = some g → g.length = 11 := by
  intro k
  induction k with
  | zero => intro h; exact Option.noConfusion h
  | succ k ih =>
      intro h
      rcases firstSome_eq_some h with h1 | h1
      · obtain ⟨cs2, _, h3⟩ := andThen_eq_some h1
        exact tryTake11_length h3
      · exact ih h1

theorem tryGroup5_length {cs : List Char} {g : String}
    (h : tryGroup5 cs = some g) : g.length = 11 := by
  unfold tryGroup5 at h
  rcases firstSome_eq_some h with h1 | h1
  · obtain ⟨cs2, _, h3⟩ := andThen_eq_some h1
    exact tryTake11_length h3
  rcases firstSome_eq_some h1 with h2 | h2
  · obtain ⟨cs2, _, h3⟩ := andThen_eq_some h2
    exact tryTake11_length h3
  rcases firstSome_eq_some h2 with h3 | h3
  · obtain ⟨cs2, _, h4⟩ := andThen_eq_some h3
    exact tryTake11_length h4
  rcases firstSome_eq_some h3 with h4 | h4
  · exact tryDotPlus_length _ h4
  · exact tryTake11_length h4

theorem tryTld_length {cs : List Char} {g : String}
    (h : tryTld cs = some g) : g.length = 11 := by
  unfold tryTld at h
  obtain ⟨cs2, _, h2⟩ := andThen_eq_some h
  rcases firstSome_eq_some h2 with h3 | h3 <;>
    · obtain ⟨cs3, _, h4⟩ := andThen_eq_some h3
      exact tryGroup5_length h4

theorem tryDomain_length {cs : List Char} {g : String}
    (h : tryDomain cs = some g) : g.length = 11 := by
  unfold tryDomain at h
  rcases firstSome_eq_some h with h1 | h1
  · obtain ⟨cs2, _, h2⟩ := andThen_eq_some h1
    exact tryTld_length h2
  rcases firstSome_eq_some h1 with h2 | h2 <;>
    · obtain ⟨cs2, _, h3⟩ := andThen_eq_some h2
      exact tryTld_length h3

theorem tryWww_length {cs : List Char} {g : String}
    (h : tryWww cs = some g) : g.length = 11 := by
  unfold tryWww at h
  rcases firstSome_eq_some h with h1 | h1
  · obtain ⟨cs2, _, h2⟩ := andThen_eq_some h1
    exact tryDomain_length h2
  · exact tryDomain_length h1

theorem youtube_regex_group6_length {url : String} {g : String}
    (h : youtube_regex_group6 url = some g) : g.length = 11 := by
  unfold youtube_regex_group6 tryScheme at h
  rcases firstSome_eq_some h with h1 | h1
  · obtain ⟨cs2, _, h2⟩ := andThen_eq_some h1
    exact tryWww_length h2
  rcases firstSome_eq_some h1 with h2 | h2
  · obtain ⟨cs2, _, h3⟩ := andThen_eq_some h2
    exact tryWww_length h3
  · exact tryWww_length h2

/-- C5: every URL matching the YouTube pattern makes
`extract_youtube_video_id` return exactly the 11-character capture group 6;
every non-matching URL makes it fail with the `Invalid YouTube URL` error. -/
theorem extract_youtube_video_id_spec (url : String) :
    (∀ g, youtube_regex_group6 url = some g →
        extract_youtube_video_id url = Except.ok g ∧ g.length = 11)
    ∧ (youtube_regex_group6 url = none →
        extract_youtube_video_id url = Except.error "Invalid YouTube URL") := by
  constructor
  · intro g h
    exact ⟨by simp [extract_youtube_video_id, h], youtube_regex_group6_length h⟩
  · intro h
    simp [extract_youtube_video_id, h]

/-- C5 witness: the short-URL form yields exactly its 11-character id, and
a non-matching URL yields the error. -/
theorem extract_youtube_video_id_spec_witness :
    (extract_youtube_video_id "https://youtu.be/dQw4w9WgXcQ" = Except.ok "dQw4w9WgXcQ"
      ∧ ("dQw4w9WgXcQ" : String).length = 11)
    ∧ extract_youtube_video_id "https://vimeo.com/12345"
        = Except.error "Invalid YouTube URL" :=
  ⟨(extract_youtube_video_id_spec "https://youtu.be/dQw4w9WgXcQ").1 "dQw4w9WgXcQ"
      (by decide),
   (extract_youtube_video_id_spec "https://vimeo.com/12345").2 (by decide)⟩

/-- C2 counterexample: the source maps a duration of 0 seconds to
`"No duration available"`, not `"0m 0s"` (Python's `if not duration:` is
true at 0). -/
theorem format_duration_zero_counterexample :
    format_duration (some 0) ≠ "0m 0s"
      ∧ format_duration (some 0) = "No duration available" := by
  constructor
  · decide
  · rfl

/-- C2 amended: 0 seconds (falsy in Python) maps to
`"No duration available"`, 3661 seconds maps to `"1h 1m 1s"`, and an absent
duration maps to `"No duration available"`. -/
theorem format_duration_values :
    format_duration (some 0) = "No duration available"
      ∧ format_duration (some 3661) = "1h 1m 1s"
      ∧ format_duration none = "No duration available" := by
  exact ⟨rfl, by decide, rfl⟩

/-! ## Claims about fetch_youtube_details -/

/-- C1 counterexample: an attempt that exits non-zero but writes nothing to
stderr does not take the warning/backoff branch — the source condition is
`stderr and returncode != 0`, so with valid JSON on stdout the call returns
details with no warning and no sleep at all. -/
theorem fetch_nonzero_exit_empty_stderr_counterexample :
    (cexAttC1 0).returncode ≠ 0
      ∧ ((fetch_youtube_details cexAttC1 "u" 3 5).1.all
          (fun e => !(isWarnEv e || isSleepEv e))) = true
      ∧ (fetch_youtube_details cexAttC1 "u" 3 5).2.isSome = true := by
  decide

/-- C1 amended: for every attempt in which the metadata call exits non-zero
AND writes to stderr, a warning is logged; if attempts remain
(`attempt < max_retries - 1`) the fetcher sleeps `base_delay * 2^attempt`
seconds before retrying, and otherwise it logs the final error and the call
returns no details. -/
theorem fetch_retry_on_error_output
    (att : Nat → AttemptOutcome) (url : String)
    (max_retries base_delay attempt fuel : Nat)
    (hfuel : attempt + fuel = max_retries) (hlt : attempt < max_retries)
    (hs : (att attempt).stderrNonEmpty = true)
    (hr : (att attempt).returncode ≠ 0) :
    (attempt < max_retries - 1 →
        fetchLoop att url max_retries base_delay attempt fuel =
          (Event.spawn (ytFetchCmd url) :: Event.warn ::
            Event.sleep (base_delay * 2 ^ attempt) ::
            (fetchLoop att url max_retries base_delay (attempt + 1) (fuel - 1)).1,
           (fetchLoop att url max_retries base_delay (attempt + 1) (fuel - 1)).2))
    ∧ (¬ attempt < max_retries - 1 →
        fetchLoop att url max_retries base_delay attempt fuel =
          ([Event.spawn (ytFetchCmd url), Event.warn, Event.logError], none)) := by
  obtain ⟨f, rfl⟩ : ∃ f, fuel = f + 1 := ⟨fuel - 1, by omega⟩
  constructor
  · intro hl
    simp only [fetchLoop]
    rw [if_pos ⟨hs, hr⟩, if_pos hl]
    simp
  · intro hl
    have hf : f = 0 := by omega
    subst hf
    simp only [fetchLoop]
    rw [if_neg hl, if_pos ⟨hs, hr⟩]

/-- C1 witness: three attempts, all failing with error output. -/
theorem fetch_retry_on_error_output_witness :
    (0 < 3 - 1 →
        fetchLoop failAtt "u" 3 5 0 3 =
          (Event.spawn (ytFetchCmd "u") :: Event.warn :: Event.sleep (5 * 2 ^ 0) ::
            (fetchLoop failAtt "u" 3 5 1 2).1,
           (fetchLoop failAtt "u" 3 5 1 2).2))
    ∧ (¬ 0 < 3 - 1 →
        fetchLoop failAtt "u" 3 5 0 3 =
          ([Event.spawn (ytFetchCmd "u"), Event.warn, Event.logError], none)) :=
  fetch_retry_on_error_output failAtt "u" 3 5 0 3 (by decide) (by decide) rfl
    (by decide)

/-- C3: when an attempt reaches the JSON-parsing branch (it is not the case
that both stderr was written and the exit code is non-zero) and stdout does
not decode, the call fails immediately: the remaining trace is a single
spawn and an error log — no backoff sleep and no further attempt — however
many retries remain. -/
theorem fetch_invalid_json_fails_immediately
    (att : Nat → AttemptOutcome) (url : String)
    (max_retries base_delay attempt fuel : Nat)
    (hpb : ¬((att attempt).stderrNonEmpty = true ∧ (att attempt).returncode ≠ 0))
    (hjson : (att attempt).stdout = none) :
    fetchLoop att url max_retries base_delay attempt (fuel + 1) =
        ([Event.spawn (ytFetchCmd url), Event.logError], none)
      ∧ (fetchLoop att url max_retries base_delay attempt (fuel + 1)).1.filterMap
          sleepSeconds = []
      ∧ (fetchLoop att url max_retries base_delay attempt (fuel + 1)).1.countP
          isSpawnEv = 1 := by
  have h : fetchLoop att url max_retries base_delay attempt (fuel + 1) =
      ([Event.spawn (ytFetchCmd url), Event.logError], none) := by
    simp only [fetchLoop]
    rw [if_neg hpb, hjson]
  refine ⟨h, ?_, ?_⟩ <;> rw [h] <;> rfl

/-- C3 witness: exit code 0, empty stderr, undecodable stdout, first of
three attempts. -/
theorem fetch_invalid_json_fails_immediately_witness :
    fetchLoop badJsonAtt "u" 3 5 0 (2 + 1) =
        ([Event.spawn (ytFetchCmd "u"), Event.logError], none)
      ∧ (fetchLoop badJsonAtt "u" 3 5 0 (2 + 1)).1.filterMap sleepSeconds = []
      ∧ (fetchLoop badJsonAtt "u" 3 5 0 (2 + 1)).1.countP isSpawnEv = 1 :=
  fetch_invalid_json_fails_immediately badJsonAtt "u" 3 5 0 2 (by decide) rfl

/-- C4: with `max_retries = 3`, `base_delay = 1`, the tool failing twice
(non-zero exit, error output) then succeeding with valid JSON, the call
performs exactly the backoff sleeps 1s then 2s, spawns three processes and
returns the details parsed from the final attempt's output. -/
theorem fetch_two_failures_then_success :
    ((fetch_youtube_details twoFailAtt "u" 3 1).1.filterMap sleepSeconds = [1, 2])
      ∧ ((fetch_youtube_details twoFailAtt "u" 3 1).1.countP isSpawnEv = 3)
      ∧ (fetch_youtube_details twoFailAtt "u" 3 1).2 = some (mkDetails sampleJson)
      ∧ (twoFailAtt 2).stdout = some sampleJson := by
  decide

/-- C6: the result of `transcribe_audio` is independent of the tool's exit
code; a format/path pair is in the result exactly when it is one of the
three expected transcript files and that file exists with non-zero size;
in particular with only txt and srt present the result is exactly those
two, in order, despite a non-zero exit code. -/
theorem transcribe_audio_result_spec :
    (∀ (fs : FileSys) (ap od : String) (rc rc2 : Int),
        (transcribe_audio fs ap od rc).2 = (transcribe_audio fs ap od rc2).2)
    ∧ (∀ (fs : FileSys) (ap od : String) (rc : Int) (fmt p : String),
        (fmt, p) ∈ (transcribe_audio fs ap od rc).2 ↔
          ((fmt, p) ∈ transcript_files od (splitextStem (basename ap))
            ∧ fileNonEmpty fs p = true))
    ∧ ((transcribe_audio c6fs "audio.mp3" "transcriptions" 1).2 =
        [("txt", "transcriptions/audio.txt"), ("srt", "transcriptions/audio.srt")]) := by
  refine ⟨fun fs ap od rc rc2 => rfl, fun fs ap od rc fmt p => ?_, by decide⟩
  simp [transcribe_audio, List.mem_filter]

/-! ## Shape lemmas for the event traces of the collaborators -/

theorem fetchLoop_events_shape (att : Nat → AttemptOutcome) (url : String)
    (m b : Nat) :
    ∀ f a, ∀ e ∈ (fetchLoop att url m b a f).1,
      e = Event.spawn (ytFetchCmd url) ∨ e = Event.warn ∨ e = Event.logError
        ∨ ∃ n, e = Event.sleep n := by
  intro f
  induction f with
  | zero => intro a e he; simp [fetchLoop] at he
  | succ f ih =>
      intro a e he
      simp only [fetchLoop] at he
      split at he
      · split at he
        · simp only [List.mem_cons] at he
          rcases he with rfl | rfl | rfl | he
          · exact Or.inl rfl
          · exact Or.inr (Or.inl rfl)
          · exact Or.inr (Or.inr (Or.inr ⟨_, rfl⟩))
          · exact ih _ e he
        · simp only [List.mem_cons] at he
          rcases he with rfl | rfl | rfl | he
          · exact Or.inl rfl
          · exact Or.inr (Or.inl rfl)
          · exact Or.inr (Or.inr (Or.inl rfl))
          · exact ih _ e he
      · split at he <;> simp only [List.mem_cons] at he
        · rcases he with rfl | he
          · exact Or.inl rfl
          · simp at he
        · rcases he with rfl | rfl | he
          · exact Or.inl rfl
          · exact Or.inr (Or.inr (Or.inl rfl))
          · simp at he

theorem fetchLoop_no_removeFile {p : String} (att : Nat → AttemptOutcome)
    (url : String) (m b f a : Nat) :
    Event.removeFile p ∉ (fetchLoop att url m b a f).1 := by
  intro h
  rcases fetchLoop_events_shape att url m b f a _ h with h1 | h1 | h1 | ⟨n, h1⟩ <;>
    exact Event.noConfusion h1

theorem fetchLoop_filter_sendDoc (att : Nat → AttemptOutcome) (url : String)
    (m b f a : Nat) :
    ((fetchLoop att url m b a f).1.filter isSendDocEv) = [] := by
  rw [List.filter_eq_nil_iff]
  intro e he
  rcases fetchLoop_events_shape att url m b f a e he with h1 | h1 | h1 | ⟨n, h1⟩ <;>
    subst h1 <;> simp [isSendDocEv]

theorem transcribe_events_shape (fs : FileSys) (ap od : String) (rc : Int) :
    ∀ e ∈ (transcribe_audio fs ap od rc).1,
      e = Event.spawn ["whisper", ap, "--output_dir", od] ∨ e = Event.logError
        ∨ e = Event.warn := by
  intro e he
  simp only [transcribe_audio, List.mem_cons, List.mem_append,
    List.mem_filterMap] at he
  rcases he with rfl | he | ⟨a, _, ha⟩
  · exact Or.inl rfl
  · split at he
    · simp only [List.mem_singleton] at he
      exact Or.inr (Or.inl he)
    · simp at he
  · split at ha
    · exact Option.noConfusion ha
    · injection ha with ha
      exact Or.inr (Or.inr ha.symm)

theorem transcribe_no_removeFile {p : String} (fs : FileSys) (ap od : String)
    (rc : Int) : Event.removeFile p ∉ (transcribe_audio fs ap od rc).1 := by
  intro h
  rcases transcribe_events_shape fs ap od rc _ h with h1 | h1 | h1 <;>
    exact Event.noConfusion h1

theorem transcribe_filter_sendDoc (fs : FileSys) (ap od : String) (rc : Int) :
    ((transcribe_audio fs ap od rc).1.filter isSendDocEv) = [] := by
  rw [List.filter_eq_nil_iff]
  intro e he
  rcases transcribe_events_shape fs ap od rc e he with h1 | h1 | h1 <;>
    subst h1 <;> simp [isSendDocEv]

theorem download_no_removeFile {p : String} (url op : String) (c : Bool) :
    Event.removeFile p ∉ download_audio url op c := by
  cases c <;> simp [download_audio]

theorem download_filter_sendDoc (url op : String) (c : Bool) :
    ((download_audio url op c).filter isSendDocEv) = [] := by
  cases c <;> simp [download_audio, isSendDocEv]

theorem fetch_no_removeFile {p : String} (att : Nat → AttemptOutcome)
    (url : String) (m b : Nat) :
    Event.removeFile p ∉ (fetch_youtube_details att url m b).1 :=
  fetchLoop_no_removeFile att url m b m 0

theorem fetch_filter_sendDoc (att : Nat → AttemptOutcome) (url : String)
    (m b : Nat) :
    ((fetch_youtube_details att url m b).1.filter isSendDocEv) = [] :=
  fetchLoop_filter_sendDoc att url m b m 0

theorem filter_sendDoc_map (l : List (String × String)) :
    ((l.map (fun q => Event.sendDocument q.2)).filter isSendDocEv)
      = l.map (fun q => Event.sendDocument q.2) := by
  induction l with
  | nil => rfl
  | cons h t ih => simp [isSendDocEv, ih]

/-! ## Claims about process_url_message -/

/-- C7: once the audio download produced the audio file, the per-URL
processing removes exactly that audio file — on the transcription-failure
path and on the successful-delivery path alike — and removes nothing else
(in particular, no transcript file). -/
theorem process_url_deletes_audio_only
    (env : UrlEnv) (url vid : String) (d : VideoDetails)
    (h1 : youtube_regex_group6 url = some vid)
    (h2 : (fetch_youtube_details env.fetchAttempts
            ("https://www.youtube.com/watch?v=" ++ vid) 3 5).2 = some d)
    (h3 : env.downloadCreates = true) :
    ∃ evs, processUrl env url = Except.ok evs
      ∧ Event.removeFile (vid ++ ".mp3") ∈ evs
      ∧ ∀ p, Event.removeFile p ∈ evs → p = vid ++ ".mp3" := by
  have hex : extract_youtube_video_id url = Except.ok vid := by
    simp [extract_youtube_video_id, h1]
  simp only [processUrl, h1, hex, h2, h3, if_true]
  split
  · refine ⟨_, rfl, ?_, ?_⟩
    · simp
    · intro p hp
      simp [fetch_no_removeFile, download_no_removeFile,
        transcribe_no_removeFile] at hp
      exact hp
  · refine ⟨_, rfl, ?_, ?_⟩
    · simp
    · intro p hp
      simp [fetch_no_removeFile, download_no_removeFile,
        transcribe_no_removeFile, isSendDocEv] at hp
      exact hp

/-- C7 witness: a short-form URL, metadata succeeding at once, download
succeeding, transcription leaving no files (the failure path still removes
the audio file and nothing else). -/
theorem process_url_deletes_audio_only_witness :
    ∃ evs, processUrl c7Env "https://youtu.be/dQw4w9WgXcQ" = Except.ok evs
      ∧ Event.removeFile ("dQw4w9WgXcQ" ++ ".mp3") ∈ evs
      ∧ ∀ p, Event.removeFile p ∈ evs → p = "dQw4w9WgXcQ" ++ ".mp3" :=
  process_url_deletes_audio_only c7Env "https://youtu.be/dQw4w9WgXcQ"
    "dQw4w9WgXcQ" (mkDetails sampleJson) (by decide) (by decide) rfl

/-- C8: a URL that does not match the YouTube pattern produces exactly one
notification, `Skipping non-YouTube URL.`, and nothing else — no
subprocess, no file operation, no further message for that URL. -/
theorem process_url_skips_non_youtube (env : UrlEnv) (url : String)
    (h : youtube_regex_group6 url = none) :
    processUrl env url = Except.ok [Event.sendMessage "Skipping non-YouTube URL."] := by
  simp [processUrl, h]

/-- C8 witness: the vimeo URL of the spec's negative end-to-end test. -/
theorem process_url_skips_non_youtube_witness :
    processUrl c8Env "https://vimeo.com/12345"
      = Except.ok [Event.sendMessage "Skipping non-YouTube URL."] :=
  process_url_skips_non_youtube c8Env "https://vimeo.com/12345" (by decide)

/-- C9: when transcription verified a non-empty file set, the documents
delivered are exactly the produced transcript files, in the declaration
order of the transcript-file mapping (txt, then srt, then vtt) restricted
to the formats whose files exist non-empty. -/
theorem process_url_sends_documents_in_order
    (env : UrlEnv) (url vid : String) (d : VideoDetails)
    (h1 : youtube_regex_group6 url = some vid)
    (h2 : (fetch_youtube_details env.fetchAttempts
            ("https://www.youtube.com/watch?v=" ++ vid) 3 5).2 = some d)
    (h3 : env.downloadCreates = true)
    (h4 : (transcribe_audio env.fsAfterWhisper (vid ++ ".mp3") "transcriptions"
            env.whisperRc).2 ≠ []) :
    ∃ evs, processUrl env url = Except.ok evs
      ∧ evs.filter isSendDocEv
          = ((transcript_files "transcriptions"
                (splitextStem (basename (vid ++ ".mp3")))).filter
              (fun q => fileNonEmpty env.fsAfterWhisper q.2)).map
              (fun q => Event.sendDocument q.2) := by
  have hex : extract_youtube_video_id url = Except.ok vid := by
    simp [extract_youtube_video_id, h1]
  have hemp : (transcribe_audio env.fsAfterWhisper (vid ++ ".mp3") "transcriptions"
      env.whisperRc).2.isEmpty = false := by
    cases he : (transcribe_audio env.fsAfterWhisper (vid ++ ".mp3") "transcriptions"
        env.whisperRc).2.isEmpty
    · rfl
    · exact absurd (List.isEmpty_iff.mp he) h4
  have h5 : (transcribe_audio env.fsAfterWhisper (vid ++ ".mp3") "transcriptions"
      env.whisperRc).2
      = ((transcript_files "transcriptions"
            (splitextStem (basename (vid ++ ".mp3")))).filter
          (fun q => fileNonEmpty env.fsAfterWhisper q.2)) := rfl
  simp only [processUrl, h1, hex, h2, h3, if_true, hemp, Bool.false_eq_true,
    if_false]
  refine ⟨_, rfl, ?_⟩
  rw [← h5]
  simp [List.filter_append, fetch_filter_sendDoc, download_filter_sendDoc,
    transcribe_filter_sendDoc, filter_sendDoc_map, isSendDocEv]

/-- C9 witness: everything succeeds, whisper exits 1 yet leaves non-empty
txt and srt files; exactly those two are delivered, txt first. -/
theorem process_url_sends_documents_in_order_witness :
    ∃ evs, processUrl c9Env "https://youtu.be/dQw4w9WgXcQ" = Except.ok evs
      ∧ evs.filter isSendDocEv
          = ((transcript_files "transcriptions"
                (splitextStem (basename ("dQw4w9WgXcQ" ++ ".mp3")))).filter
              (fun q => fileNonEmpty c9Env.fsAfterWhisper q.2)).map
              (fun q => Event.sendDocument q.2) :=
  process_url_sends_documents_in_order c9Env "https://youtu.be/dQw4w9WgXcQ"
    "dQw4w9WgXcQ" (mkDetails sampleJson) (by decide) (by decide) rfl (by decide)

theorem processUrl_isOk (env : UrlEnv) (url : String) :
    ∃ evs, processUrl env url = Except.ok evs := by
  unfold processUrl
  cases hm : youtube_regex_group6 url with
  | none => exact ⟨_, rfl⟩
  | some g =>
      have hex : extract_youtube_video_id url = Except.ok g := by
        simp [extract_youtube_video_id, hm]
      simp only [hex]
      cases hfr : (fetch_youtube_details env.fetchAttempts
          ("https://www.youtube.com/watch?v=" ++ g) 3 5).2 with
      | none => exact ⟨_, rfl⟩
      | some d =>
          split
          · rename_i heq
            exact Option.noConfusion heq
          · split
            · split
              · exact ⟨_, rfl⟩
              · exact ⟨_, rfl⟩
            · exact ⟨_, rfl⟩

/-- C10: the orchestrator only calls the id extractor on URLs that already
matched the YouTube pattern, so the extractor's failure branch is
unreachable from it: `process_url_message` never propagates the
`Invalid YouTube URL` error, whatever the message text and oracles. -/
theorem process_url_message_never_raises (envs : Nat → UrlEnv) (text : String) :
    ∃ evs, process_url_message envs text = Except.ok evs := by
  unfold process_url_message
  suffices h : ∀ (l : List String) (i : Nat),
      ∃ evs, processUrls envs l i = Except.ok evs from h _ 0
  intro l
  induction l with
  | nil => intro i; exact ⟨[], rfl⟩
  | cons u rest ih =>
      intro i
      obtain ⟨e1, he1⟩ := processUrl_isOk (envs i) u
      obtain ⟨e2, he2⟩ := ih (i + 1)
      exact ⟨e1 ++ e2, by simp [processUrls, he1, he2]⟩
